import Mathlib

/-!
Verification of the rpi-zero-sleepcyclecapture scripts.

A shallow embedding of `src/sleep_cycle.py` (backend probing, per-capture
path construction, the capture/idle main loop, the low-power flag) and of
`src/sleep_test.py` (sleep-state probing and selection), together with
theorems settling the specified properties.
-/

namespace SleepCycle

/-- The argparse choices of the --camera-method flag in sleep_cycle.py:
"auto", "libcamera", "picamera", "fswebcam". -/
inductive CameraMethod where
  | auto
  | libcamera
  | picamera
  | fswebcam
deriving DecidableEq, Repr

/-- The host configuration probed by find_camera_method: whether
shutil.which finds libcamera-still, whether it finds fswebcam, and
whether the picamera Python module imports successfully. -/
structure Host where
  has_libcamera_still : Bool
  has_fswebcam : Bool
  picamera_importable : Bool
deriving DecidableEq, Repr

/-- Embedding of find_camera_method (sleep_cycle.py lines 28-51).
A non-auto --camera-method is returned unchanged; otherwise
libcamera-still is preferred, then fswebcam; otherwise picamera is
returned whether or not the module imports (the except ImportError
branch also returns "picamera" as a fallback to be tried later). -/
def find_camera_method (o : CameraMethod) (host : Host) : CameraMethod :=
  if o ≠ CameraMethod.auto then o
  else if host.has_libcamera_still then CameraMethod.libcamera
  else if host.has_fswebcam then CameraMethod.fswebcam
  else if host.picamera_importable then CameraMethod.picamera
  else CameraMethod.picamera

/-- The dispatch performed by capture_image (lines 143-151): one branch
per recognized method string, and an else branch printing
"No valid camera method available" and returning False. -/
inductive CaptureDispatch where
  | withLibcamera
  | withFswebcam
  | withPicamera
  | noValidMethod
deriving DecidableEq, Repr

/-- The if/elif/else chain of capture_image lines 143-151: only the three
recognized method names reach a backend capture function. -/
def capture_dispatch (m : CameraMethod) : CaptureDispatch :=
  match m with
  | CameraMethod.libcamera => CaptureDispatch.withLibcamera
  | CameraMethod.fswebcam => CaptureDispatch.withFswebcam
  | CameraMethod.picamera => CaptureDispatch.withPicamera
  | CameraMethod.auto => CaptureDispatch.noValidMethod

/-- True when the dispatch reaches one of the three backend capture
functions rather than the "No valid camera method available" branch. -/
def dispatches_to_backend : CaptureDispatch → Bool
  | CaptureDispatch.noValidMethod => false
  | _ => true

/-- A wall-clock instant at second granularity, as consumed by
datetime.now().strftime in capture_image. -/
structure DateTime where
  year : Nat
  month : Nat
  day : Nat
  hour : Nat
  minute : Nat
  second : Nat
deriving DecidableEq, Repr

/-- Zero-padding to two digits, as strftime does for %m %d %H %M %S. -/
def pad2 (n : Nat) : String :=
  if n < 10 then "0" ++ toString n else toString n

/-- Zero-padding to four digits, as strftime does for %Y. -/
def pad4 (n : Nat) : String :=
  if n < 10 then "000" ++ toString n
  else if n < 100 then "00" ++ toString n
  else if n < 1000 then "0" ++ toString n
  else toString n

/-- date_str = now.strftime("%Y%m%d") (line 129). -/
def date_str (t : DateTime) : String :=
  pad4 t.year ++ pad2 t.month ++ pad2 t.day

/-- timestamp = now.strftime("%Y%m%d_%H%M%S") (line 130). -/
def time_str (t : DateTime) : String :=
  pad4 t.year ++ pad2 t.month ++ pad2 t.day ++ "_" ++
    pad2 t.hour ++ pad2 t.minute ++ pad2 t.second

/-- The filesystem, modelled as the list of directories that exist. -/
abbrev FileSystem := List String

/-- daily_dir = f"./images/\x7bdate_str\x7d" (line 133). -/
def daily_dir (t : DateTime) : String :=
  "./images/" ++ date_str t

/-- image_path = f"\x7bdaily_dir\x7d/image_\x7btimestamp\x7d.jpg" (line 139). -/
def image_path_for (t : DateTime) : String :=
  daily_dir t ++ "/image_" ++ time_str t ++ ".jpg"

/-- os.makedirs(d): creates the directory, raising FileExistsError when it
already exists (modelled as the error case). -/
def makedirs (d : String) (fs : FileSystem) : Except String FileSystem :=
  if d ∈ fs then Except.error "FileExistsError" else Except.ok (d :: fs)

/-- The guarded day-directory step of capture_image lines 132-136:
if not os.path.exists(daily_dir): os.makedirs(daily_dir). -/
def ensure_daily_dir (d : String) (fs : FileSystem) : Except String FileSystem :=
  if d ∈ fs then Except.ok fs else makedirs d fs

/-- What capture_image computes besides the backend call: the filesystem
after the day-directory step, the image path, and the dispatch taken. -/
structure CaptureOutcome where
  fs : FileSystem
  image_path : String
  dispatch : CaptureDispatch
deriving DecidableEq, Repr

/-- Embedding of capture_image (lines 126-151) at instant t: compute
date_str and timestamp from now, create the daily directory if absent,
form the image path, and dispatch on the selected method. -/
def capture_image (m : CameraMethod) (t : DateTime) (fs : FileSystem) : CaptureOutcome :=
  let dd := daily_dir t
  let fs1 := if dd ∈ fs then fs else dd :: fs
  { fs := fs1
    image_path := dd ++ "/image_" ++ time_str t ++ ".jpg"
    dispatch := capture_dispatch m }

/-- Success of the backend call made by capture_image. For libcamera and
fswebcam it is the external process's exit status (abstracted as ext);
capture_with_picamera (lines 192-214) returns False on ImportError, so
picamera succeeds only when the module imports; the else branch of
capture_image (line 150-151) returns False. -/
def capture_backend (host : Host) (m : CameraMethod) (ext : Bool) : Bool :=
  match m with
  | CameraMethod.libcamera => ext
  | CameraMethod.fswebcam => ext
  | CameraMethod.picamera => host.picamera_importable && ext
  | CameraMethod.auto => false

/-- exit_low_power_mode (lines 92-100) clears the flag. -/
def exit_low_power_mode : Bool := false

/-- enter_low_power_mode (lines 79-90) sets the flag. -/
def enter_low_power_mode : Bool := true

/-- The finally block of main (lines 248-252): if in_low_power_mode,
exit_low_power_mode(); the resulting flag value. -/
def finally_cleanup (b : Bool) : Bool :=
  if b then exit_low_power_mode else b

/-- Observable events of one run of the main loop: a capture attempt and
an idle wait, each recorded with the in_low_power_mode flag in force. -/
inductive Event where
  | capture (lowPower : Bool) (success : Bool) (path : String)
  | idleWait (lowPower : Bool) (duration : Nat)
deriving DecidableEq, Repr

def is_capture : Event → Bool
  | Event.capture _ _ _ => true
  | Event.idleWait _ _ => false

def is_idle : Event → Bool
  | Event.capture _ _ _ => false
  | Event.idleWait _ _ => true

/-- The durations of the idle waits in a trace, in order. -/
def idle_durations (evs : List Event) : List Nat :=
  evs.filterMap fun e =>
    match e with
    | Event.idleWait _ d => some d
    | Event.capture _ _ _ => none

/-- Every capture is performed with the flag cleared and every idle wait
with the flag set. -/
def low_power_discipline : Event → Bool
  | Event.capture lp _ _ => lp == false
  | Event.idleWait lp _ => lp == true

/-- The configuration consumed by the loop: args.interval and the
resolved camera_method global. -/
structure Config where
  interval : Nat
  camera_method : CameraMethod
deriving DecidableEq, Repr

/-- The argparse default of --interval (line 17). -/
def default_interval : Nat := 60

/-- The loop state: the in_low_power_mode flag, the cycle counter, the
filesystem, and the trace of events so far. -/
structure LoopState where
  in_low_power_mode : Bool
  cycle_count : Nat
  fs : FileSystem
  events : List Event
deriving DecidableEq, Repr

/-- State after setup(): flag clear (line 24), counter zero (line 25),
./images created (lines 107-108), nothing captured yet. -/
def initState : LoopState :=
  { in_low_power_mode := false, cycle_count := 0, fs := ["./images"], events := [] }

/-- One iteration of the while True loop in main (lines 224-242): exit
low-power mode if set, increment the counter, capture, enter low-power
mode, wait args.interval seconds. -/
def cycle_step (cfg : Config) (host : Host) (t : DateTime) (ext : Bool)
    (s : LoopState) : LoopState :=
  let lp := if s.in_low_power_mode then exit_low_power_mode else s.in_low_power_mode
  let count1 := s.cycle_count + 1
  let cap := capture_image cfg.camera_method t s.fs
  let ok := capture_backend host cfg.camera_method ext
  { in_low_power_mode := enter_low_power_mode
    cycle_count := count1
    fs := cap.fs
    events := s.events ++ [Event.capture lp ok cap.image_path,
                           Event.idleWait enter_low_power_mode cfg.interval] }

/-- The loop after n completed cycles, with each cycle's wall clock and
external-tool outcome supplied by oracles. -/
def run_loop (cfg : Config) (host : Host) (times : Nat → DateTime)
    (ext : Nat → Bool) : Nat → LoopState
  | 0 => initState
  | Nat.succ n => cycle_step cfg host (times n) (ext n)
      (run_loop cfg host times ext n)

end SleepCycle

namespace SleepTest

/-- The preference order of sleep states tested by sleep_test.py
(line 52): most power saving first. -/
def test_states : List String := ["mem", "standby", "freeze", "disk"]

/-- states_to_test (line 55): the preference order filtered to the
states present in the kernel-exposed list. -/
def states_to_test (available : List String) : List String :=
  test_states.filter fun s => available.contains s

/-- The state that sleep_test.py tests first and, when it works,
recommends: the head of states_to_test. -/
def select_sleep_state (available : List String) : Option String :=
  (states_to_test available).head?

/-- The outcome of sleep_test.py's main (lines 41-61) as far as state
selection goes: sys.exit(1) when no states are exposed, sys.exit(1) when
none is recognized, otherwise proceed to testing the filtered list. -/
inductive TestOutcome where
  | exitNoStates
  | exitNoRecognized
  | proceed (states : List String)
deriving DecidableEq, Repr

/-- Embedding of main's selection logic (sleep_test.py lines 41-61). -/
def sleep_test_main (available : List String) : TestOutcome :=
  if available = [] then TestOutcome.exitNoStates
  else if states_to_test available = [] then TestOutcome.exitNoRecognized
  else TestOutcome.proceed (states_to_test available)

/-- The process exit status implied by a TestOutcome: some code when the
process aborts via sys.exit, none when it proceeds. -/
def exit_code : TestOutcome → Option Nat
  | TestOutcome.exitNoStates => some 1
  | TestOutcome.exitNoRecognized => some 1
  | TestOutcome.proceed _ => none

end SleepTest

namespace SleepCycle

/-! ### Helper lemmas about the loop trace -/

lemma exit_before_capture (b : Bool) :
    (if b then exit_low_power_mode else b) = false := by
  cases b <;> rfl

/-- The two events one iteration of the loop appends to the trace. -/
def cycle_trace (cfg : Config) (host : Host) (times : Nat → DateTime)
    (ext : Nat → Bool) (i : Nat) : List Event :=
  [Event.capture false (capture_backend host cfg.camera_method (ext i))
      (image_path_for (times i)),
   Event.idleWait true cfg.interval]

/-- The trace of the first n cycles. -/
def trace_up_to (cfg : Config) (host : Host) (times : Nat → DateTime)
    (ext : Nat → Bool) : Nat → List Event
  | 0 => []
  | Nat.succ n => trace_up_to cfg host times ext n ++ cycle_trace cfg host times ext n

lemma run_loop_cycle_count (cfg : Config) (host : Host) (times : Nat → DateTime)
    (ext : Nat → Bool) : ∀ n, (run_loop cfg host times ext n).cycle_count = n := by
  intro n
  induction n with
  | zero => rfl
  | succ n ih => simp [run_loop, cycle_step, ih]

lemma run_loop_events (cfg : Config) (host : Host) (times : Nat → DateTime)
    (ext : Nat → Bool) : ∀ n,
    (run_loop cfg host times ext n).events = trace_up_to cfg host times ext n := by
  intro n
  induction n with
  | zero => rfl
  | succ n ih =>
    simp [run_loop, cycle_step, trace_up_to, cycle_trace, ih,
      exit_before_capture, capture_image, image_path_for, enter_low_power_mode]

lemma trace_filter_capture_length (cfg : Config) (host : Host)
    (times : Nat → DateTime) (ext : Nat → Bool) : ∀ n,
    ((trace_up_to cfg host times ext n).filter is_capture).length = n := by
  intro n
  induction n with
  | zero => rfl
  | succ n ih => simp [trace_up_to, cycle_trace, List.filter_append, ih, is_capture]

lemma trace_filter_idle_length (cfg : Config) (host : Host)
    (times : Nat → DateTime) (ext : Nat → Bool) : ∀ n,
    ((trace_up_to cfg host times ext n).filter is_idle).length = n := by
  intro n
  induction n with
  | zero => rfl
  | succ n ih => simp [trace_up_to, cycle_trace, List.filter_append, ih, is_idle]

lemma trace_idle_durations (cfg : Config) (host : Host)
    (times : Nat → DateTime) (ext : Nat → Bool) : ∀ n,
    idle_durations (trace_up_to cfg host times ext n) =
      List.replicate n cfg.interval := by
  intro n
  induction n with
  | zero => rfl
  | succ n ih =>
    simp [trace_up_to, cycle_trace, idle_durations, List.filterMap_append, ih,
      List.replicate_succ']
    simp [idle_durations] at ih
    exact ih

lemma trace_low_power_discipline (cfg : Config) (host : Host)
    (times : Nat → DateTime) (ext : Nat → Bool) : ∀ n,
    (trace_up_to cfg host times ext n).all low_power_discipline = true := by
  intro n
  induction n with
  | zero => rfl
  | succ n ih =>
    simp [trace_up_to, cycle_trace, List.all_append, ih, low_power_discipline]

end SleepCycle

namespace SleepCycle

/-! ### Claim theorems -/

/-- C1: Backend selection is a deterministic function of the discoverable
set and the user override: a user-forced (non-auto) choice is returned
first, then libcamera when libcamera-still is discoverable, then fswebcam,
then picamera; in particular whenever libcamera-still is available it wins
over fswebcam, and equal inputs yield equal backends. -/
theorem c1_backend_selection_preference (o : CameraMethod) (host host2 : Host) :
    (o ≠ CameraMethod.auto → find_camera_method o host = o) ∧
    (host.has_libcamera_still = true →
      find_camera_method CameraMethod.auto host = CameraMethod.libcamera) ∧
    (host.has_libcamera_still = false → host.has_fswebcam = true →
      find_camera_method CameraMethod.auto host = CameraMethod.fswebcam) ∧
    (host.has_libcamera_still = false → host.has_fswebcam = false →
      find_camera_method CameraMethod.auto host = CameraMethod.picamera) ∧
    (host = host2 → find_camera_method o host = find_camera_method o host2) := by
  refine ⟨?_, ?_, ?_, ?_, ?_⟩
  · intro h; simp [find_camera_method, h]
  · intro h; simp [find_camera_method, h]
  · intro h1 h2; simp [find_camera_method, h1, h2]
  · intro h1 h2
    cases hp : host.picamera_importable <;> simp [find_camera_method, h1, h2, hp]
  · intro h; rw [h]

/-- Witness for C1: forced choices are honoured, and with both
libcamera-still and fswebcam available, libcamera is chosen. -/
theorem c1_backend_selection_preference_witness :
    find_camera_method CameraMethod.fswebcam (Host.mk true true true) =
      CameraMethod.fswebcam ∧
    find_camera_method CameraMethod.auto (Host.mk true true false) =
      CameraMethod.libcamera :=
  ⟨(c1_backend_selection_preference CameraMethod.fswebcam (Host.mk true true true)
      (Host.mk true true true)).1 (by decide),
   (c1_backend_selection_preference CameraMethod.auto (Host.mk true true false)
      (Host.mk true true false)).2.1 rfl⟩

/-- An event that is a capture records a failed attempt. -/
def capture_failed : Event → Bool
  | Event.capture _ ok _ => ok == false
  | Event.idleWait _ _ => true

/-- C2 is false of the code: with no libcamera-still, no fswebcam and no
importable picamera module, find_camera_method still returns picamera (no
NoBackendAvailable error exists in the script), startup does not abort,
and the loop runs — after 3 cycles the counter is 3, 3 capture attempts
were made, and every one of them failed. -/
theorem c2_counterexample :
    find_camera_method CameraMethod.auto (Host.mk false false false) =
      CameraMethod.picamera ∧
    (run_loop (Config.mk 60 CameraMethod.picamera) (Host.mk false false false)
      (fun _ => DateTime.mk 2024 1 1 0 0 0) (fun _ => true) 3).cycle_count = 3 ∧
    ((run_loop (Config.mk 60 CameraMethod.picamera) (Host.mk false false false)
      (fun _ => DateTime.mk 2024 1 1 0 0 0) (fun _ => true) 3).events.filter
        is_capture).length = 3 ∧
    (run_loop (Config.mk 60 CameraMethod.picamera) (Host.mk false false false)
      (fun _ => DateTime.mk 2024 1 1 0 0 0) (fun _ => true) 3).events.all
        capture_failed = true := by
  refine ⟨rfl, rfl, rfl, rfl⟩

/-- C2 (amended): if zero capture backends are discoverable, startup does
not fail: find_camera_method returns picamera as a lazy fallback, the
loop runs (the cycle counter reaches every n), and every capture attempt
fails at capture time. -/
theorem c2_amended_lazy_fallback (host : Host) (cfg : Config)
    (times : Nat → DateTime) (ext : Nat → Bool) (n : Nat)
    (h1 : host.has_libcamera_still = false) (h2 : host.has_fswebcam = false)
    (h3 : host.picamera_importable = false)
    (hc : cfg.camera_method = CameraMethod.picamera) :
    find_camera_method CameraMethod.auto host = CameraMethod.picamera ∧
    (run_loop cfg host times ext n).cycle_count = n ∧
    (run_loop cfg host times ext n).events.all capture_failed = true := by
  refine ⟨?_, run_loop_cycle_count cfg host times ext n, ?_⟩
  · simp [find_camera_method, h1, h2]
  · rw [run_loop_events]
    induction n with
    | zero => rfl
    | succ n ih =>
      simp only [trace_up_to, List.all_append, ih, Bool.true_and]
      simp [cycle_trace, capture_failed, capture_backend, hc, h3]

/-- Witness for C2's amended theorem at a concrete zero-backend host. -/
theorem c2_amended_lazy_fallback_witness :
    find_camera_method CameraMethod.auto (Host.mk false false false) =
      CameraMethod.picamera ∧
    (run_loop (Config.mk 60 CameraMethod.picamera) (Host.mk false false false)
      (fun _ => DateTime.mk 2024 1 1 0 0 0) (fun _ => false) 2).cycle_count = 2 ∧
    (run_loop (Config.mk 60 CameraMethod.picamera) (Host.mk false false false)
      (fun _ => DateTime.mk 2024 1 1 0 0 0) (fun _ => false) 2).events.all
        capture_failed = true :=
  c2_amended_lazy_fallback (Host.mk false false false)
    (Config.mk 60 CameraMethod.picamera) (fun _ => DateTime.mk 2024 1 1 0 0 0)
    (fun _ => false) 2 rfl rfl rfl rfl

/-- C3: for every instant t, the path produced by capture_image is
./images/<D>/image_<T>.jpg with D the date formatted YYYYMMDD and T the
timestamp formatted YYYYMMDD_HHMMSS, and the day directory ./images/<D>
exists in the filesystem after the call. -/
theorem c3_capture_image_path_and_dir (m : CameraMethod) (t : DateTime)
    (fs : FileSystem) :
    (capture_image m t fs).image_path =
      "./images/" ++ date_str t ++ ("/image_" ++ (time_str t ++ ".jpg")) ∧
    daily_dir t ∈ (capture_image m t fs).fs := by
  constructor
  · simp [capture_image, daily_dir, String.append_assoc]
  · by_cases h : daily_dir t ∈ fs <;> simp [capture_image, h]

end SleepCycle

namespace SleepCycle

/-- C4: the day-directory step is idempotent: starting from a filesystem
holding at most one copy of the directory, the step succeeds (never
raises, since os.makedirs is only called when the directory is absent), a
second invocation returns the same filesystem unchanged, and exactly one
directory for that date remains. -/
theorem c4_ensure_daily_dir_idempotent (d : String) (fs : FileSystem)
    (h : fs.count d ≤ 1) :
    ∃ fs1, ensure_daily_dir d fs = Except.ok fs1 ∧
      ensure_daily_dir d fs1 = Except.ok fs1 ∧
      fs1.count d = 1 := by
  by_cases hm : d ∈ fs
  · refine ⟨fs, ?_, ?_, ?_⟩
    · simp [ensure_daily_dir, hm]
    · simp [ensure_daily_dir, hm]
    · exact le_antisymm h (List.one_le_count_iff.mpr hm)
  · refine ⟨d :: fs, ?_, ?_, ?_⟩
    · simp [ensure_daily_dir, makedirs, hm]
    · simp [ensure_daily_dir]
    · simp [List.count_eq_zero_of_not_mem hm]

/-- Witness for C4 at the empty filesystem and a concrete day. -/
theorem c4_ensure_daily_dir_idempotent_witness :
    ∃ fs1, ensure_daily_dir "./images/20250101" [] = Except.ok fs1 ∧
      ensure_daily_dir "./images/20250101" fs1 = Except.ok fs1 ∧
      fs1.count "./images/20250101" = 1 :=
  c4_ensure_daily_dir_idempotent "./images/20250101" [] (by decide)

/-- C5: a failed capture never terminates the loop: for every sequence of
backend outcomes (in particular all-failing ones) and every n, the loop
completes n cycles — the counter reaches n and the trace holds exactly n
capture attempts and n idle waits, one idle step after every capture
attempt regardless of its outcome. -/
theorem c5_failures_never_terminate_loop (cfg : Config) (host : Host)
    (times : Nat → DateTime) (ext : Nat → Bool) (n : Nat) :
    (run_loop cfg host times ext n).cycle_count = n ∧
    ((run_loop cfg host times ext n).events.filter is_capture).length = n ∧
    ((run_loop cfg host times ext n).events.filter is_idle).length = n := by
  refine ⟨run_loop_cycle_count cfg host times ext n, ?_, ?_⟩
  · rw [run_loop_events]; exact trace_filter_capture_length cfg host times ext n
  · rw [run_loop_events]; exact trace_filter_idle_length cfg host times ext n

/-- C8: each cycle ends with exactly one idle wait of the configured
interval: after n completed cycles the idle waits issued are exactly n,
each of cfg.interval seconds, and the argparse default of the interval
flag is 60 seconds. -/
theorem c8_one_idle_wait_per_cycle (cfg : Config) (host : Host)
    (times : Nat → DateTime) (ext : Nat → Bool) (n : Nat) :
    idle_durations (run_loop cfg host times ext n).events =
      List.replicate n cfg.interval ∧
    default_interval = 60 := by
  refine ⟨?_, rfl⟩
  rw [run_loop_events]
  exact trace_idle_durations cfg host times ext n

/-- C9: the "No valid camera method available" branch of capture_image is
unreachable when the method comes from find_camera_method: the selection
never returns auto, so every capture_image call dispatches to one of the
three backend capture functions. -/
theorem c9_no_valid_method_branch_unreachable (o : CameraMethod) (host : Host)
    (t : DateTime) (fs : FileSystem) :
    dispatches_to_backend
      (capture_image (find_camera_method o host) t fs).dispatch = true ∧
    (find_camera_method o host == CameraMethod.auto) = false := by
  obtain ⟨l, f, p⟩ := host
  cases o <;> cases l <;> cases f <;> cases p <;> exact ⟨rfl, rfl⟩

/-- C10: the low-power flag alternates with the loop phases: in the trace
of any run, every capture event carries in_low_power_mode = false and
every idle wait carries in_low_power_mode = true; and the finally block
leaves the flag false from either value it may hold at loop exit. -/
theorem c10_low_power_flag_discipline (cfg : Config) (host : Host)
    (times : Nat → DateTime) (ext : Nat → Bool) (n : Nat) (b : Bool) :
    (run_loop cfg host times ext n).events.all low_power_discipline = true ∧
    finally_cleanup b = false := by
  constructor
  · rw [run_loop_events]; exact trace_low_power_discipline cfg host times ext n
  · cases b <;> rfl

end SleepCycle

namespace SleepTest

lemma head_of_filter {α : Type} (p : α → Bool) :
    ∀ l : List α, (l.filter p).head? = l.find? p := by
  intro l
  induction l with
  | nil => rfl
  | cons a l ih => cases hpa : p a <;> simp [List.filter_cons, List.find?_cons, hpa, ih]

/-- C6: sleep-state selection picks the first entry of the preference
order [mem, standby, freeze, disk] present in the kernel-exposed list:
the selected state is exactly the earliest preference-order entry found
in the available list, and for ["mem", "disk"] it is mem. -/
theorem c6_select_first_preference (available : List String) :
    select_sleep_state available =
      test_states.find? (fun s => available.contains s) ∧
    select_sleep_state ["mem", "disk"] = some "mem" := by
  constructor
  · unfold select_sleep_state states_to_test
    exact head_of_filter _ test_states
  · rfl

/-- C7 is false of the code: sleep_test.py aborts via sys.exit(1) — exit
status 1, not a silent fallback — both when the sleep-state list is empty
and when it contains no recognized entry (here ["idle", "on"]). -/
theorem c7_counterexample :
    exit_code (sleep_test_main []) = some 1 ∧
    exit_code (sleep_test_main ["idle", "on"]) = some 1 := by
  exact ⟨rfl, rfl⟩

/-- C7 (amended): when the sleep-state list is empty or contains no
recognized entry from the preference order, sleep_test.py does not fall
back to a timed wait: it prints an error and exits with status 1. -/
theorem c7_amended_exit_on_unusable_states (available : List String)
    (h : available = [] ∨ states_to_test available = []) :
    exit_code (sleep_test_main available) = some 1 := by
  unfold sleep_test_main
  rcases h with h | h
  · simp [h, exit_code]
  · by_cases he : available = [] <;> simp [he, h, exit_code]

/-- Witness for C7's amended theorem at a concrete unrecognized list. -/
theorem c7_amended_exit_on_unusable_states_witness :
    exit_code (sleep_test_main ["nvs"]) = some 1 :=
  c7_amended_exit_on_unusable_states ["nvs"] (Or.inr rfl)

end SleepTest
